import Mathlib

/-!
Verification of the state-diffing and notification-policy engine of the
generac-aws-notifier repository (src/config.py, src/state_manager.py,
src/notifier.py, src/lambda_handler.py), via a shallow embedding of the
Python code into Lean.

Python runtime values that flow through the state records and change-sets
are modelled by the inductive type `Value` (None, bool, int, float, str).
Python floats are modelled as exact decimal fixed-point numbers
(`Dec`, the value `num / 10 ^ exp`): every float appearing in the
repository and its configuration (voltages, the 12.0 threshold) is a
decimal literal, and no claim depends on binary-float rounding.
Python dicts with string keys are modelled by association lists with
first-match lookup.
-/

/-- Exact decimal number `num / 10 ^ exp`, the model of a Python float. -/
structure Dec where
  num : Int
  exp : Nat
deriving DecidableEq

/-- Numeric equality of two decimals (cross-multiplied). -/
def dEq (a b : Dec) : Bool :=
  decide (a.num * (10 : Int) ^ b.exp = b.num * (10 : Int) ^ a.exp)

/-- Numeric strict order on decimals (cross-multiplied; both scale
factors are positive). -/
def dLt (a b : Dec) : Bool :=
  decide (a.num * (10 : Int) ^ b.exp < b.num * (10 : Int) ^ a.exp)

/-- A Python runtime value as it appears in normalized state records:
`None`, a `bool`, an `int`, a `float` (decimal model), or a `str`. -/
inductive Value where
  | none : Value
  | bool : Bool → Value
  | int : Int → Value
  | float : Dec → Value
  | str : String → Value
deriving DecidableEq

/-- Numeric view used by Python `==`: `bool` is a subclass of `int`
(`True == 1`), ints and floats compare numerically. -/
def toNum : Value → Option Dec
  | Value.bool b => some ⟨if b then 1 else 0, 0⟩
  | Value.int n => some ⟨n, 0⟩
  | Value.float q => some q
  | _ => Option.none

/-- Python `==` on `Value`: `None` only equals `None`, strings compare as
strings, numbers (bool/int/float) compare numerically, and a string never
equals a number. -/
def pyEq (a b : Value) : Bool :=
  match a, b with
  | Value.none, Value.none => true
  | Value.str s, Value.str t => decide (s = t)
  | _, _ =>
    match toNum a, toNum b with
    | some x, some y => dEq x y
    | _, _ => false

/-- Python truthiness: `None` is falsy, `0`, `0.0` and `""` are falsy,
everything else is truthy. -/
def truthy : Value → Bool
  | Value.none => false
  | Value.bool b => b
  | Value.int n => decide (n ≠ 0)
  | Value.float q => decide (q.num ≠ 0)
  | Value.str s => decide (s ≠ "")

/-- Decimal digit value of a character, if it is a digit. -/
def charDigit (c : Char) : Option Nat :=
  if c.isDigit then some (c.toNat - 48) else Option.none

/-- Accumulate a digit string into a natural number; fails on a non-digit.
An empty list yields 0 (callers enforce at least one digit overall). -/
def digitsVal (cs : List Char) : Option Nat :=
  cs.foldl
    (fun acc c =>
      match acc, charDigit c with
      | some a, some d => some (a * 10 + d)
      | _, _ => Option.none)
    (some 0)

/-- Split a character list at the first dot: integer part and, when a dot
is present, the remaining characters after it. -/
def splitDot : List Char → List Char × Option (List Char)
  | [] => ([], Option.none)
  | c :: rest =>
    if c = '.' then ([], some rest)
    else
      let p := splitDot rest
      (c :: p.1, p.2)

/-- Models Python `float(str)` on plain decimal literals: optional sign,
digits, optional dot and fraction digits.  Exotic forms (exponents,
whitespace, underscores, inf/nan) are rejected; no claim depends on them. -/
def parsePyFloat (s : String) : Option Dec :=
  let cs := s.toList
  let signed : Bool × List Char :=
    match cs with
    | c :: rest =>
      if c = '-' then (true, rest)
      else if c = '+' then (false, rest)
      else (false, cs)
    | [] => (false, [])
  let p := splitDot signed.2
  let mkD : Int → Nat → Option Dec := fun n e =>
    some ⟨if signed.1 then -n else n, e⟩
  match p.2 with
  | Option.none =>
    match digitsVal p.1 with
    | some ip => if p.1 = [] then Option.none else mkD (ip : Int) 0
    | Option.none => Option.none
  | some fracCs =>
    match digitsVal p.1, digitsVal fracCs with
    | some ip, some fp =>
      if p.1 = [] ∧ fracCs = [] then Option.none
      else mkD ((ip : Int) * (10 : Int) ^ fracCs.length + (fp : Int)) fracCs.length
    | _, _ => Option.none

/-- Python `float(value)`: bools and ints convert numerically, floats pass
through, strings are parsed, `None` raises (modelled as failure). -/
def pyFloat : Value → Option Dec
  | Value.bool b => some ⟨if b then 1 else 0, 0⟩
  | Value.int n => some ⟨n, 0⟩
  | Value.float q => some q
  | Value.str s => parsePyFloat s
  | Value.none => Option.none

/-- Round a decimal to the nearest integer, ties to even (the rounding of
Python fixed-point formatting for exactly representable halves). -/
def roundHalfEven (a : Dec) : Int :=
  let p : Int := (10 : Int) ^ a.exp
  let f := a.num.fdiv p
  let r := a.num - f * p
  if 2 * r < p then f
  else if p < 2 * r then f + 1
  else if f % 2 = 0 then f else f + 1

/-- Left-pad a string with zeros to a given length. -/
def padZeros (s : String) (len : Nat) : String :=
  String.mk (List.replicate (len - s.length) '0') ++ s

/-- Python `f"{x:.1f}"`: fixed-point rendering with one decimal digit. -/
def formatFloat1 (q : Dec) : String :=
  let n := roundHalfEven ⟨q.num * 10, q.exp⟩
  let sign := if n < 0 then "-" else ""
  let m := n.natAbs
  sign ++ toString (m / 10) ++ "." ++ toString (m % 10)

/-- Strip trailing decimal zeros: divide the mantissa by 10 while the
exponent is positive and the mantissa is divisible. -/
def stripZeros : Int → Nat → Int × Nat
  | n, 0 => (n, 0)
  | n, e + 1 => if n % 10 = 0 then stripZeros (n / 10) e else (n, e + 1)

/-- Python `str(x)` for a float value: shortest decimal form, always with
at least one digit after the point (`12.0`, `13.2`). -/
def floatRepr (q : Dec) : String :=
  let p := stripZeros q.num q.exp
  let sign := if p.1 < 0 then "-" else ""
  let m := p.1.natAbs
  if p.2 = 0 then sign ++ toString m ++ ".0"
  else
    let sc := (10 : Nat) ^ p.2
    sign ++ toString (m / sc) ++ "." ++ padZeros (toString (m % sc)) p.2

/-- Python `str(value)` as used by f-string interpolation. -/
def pyStr : Value → String
  | Value.none => "None"
  | Value.bool true => "True"
  | Value.bool false => "False"
  | Value.int n => toString n
  | Value.float q => floatRepr q
  | Value.str s => s

/-- One step of Python `str.title()`: upper-case an alphabetic character
that does not follow another alphabetic character, lower-case the rest. -/
def titleCaseAux : Bool → List Char → List Char
  | _, [] => []
  | prevAlpha, c :: rest =>
    let isA := c.isAlpha
    (if isA then (if prevAlpha then c.toLower else c.toUpper) else c)
      :: titleCaseAux isA rest

/-- Python `str.title()` restricted to ASCII letters (the field names the
code titles are ASCII). -/
def titleCase (s : String) : String :=
  String.mk (titleCaseAux false s.toList)

example : titleCase "battery voltage" = "Battery Voltage" := by decide
example : pyFloat (Value.str "11.9") = some ⟨119, 1⟩ := by decide
example : pyFloat (Value.str "0") = some ⟨0, 0⟩ := by decide
example : pyFloat (Value.str "") = Option.none := by decide
example : pyEq (Value.str "12.0") (Value.float ⟨120, 1⟩) = false := by decide
example : pyEq (Value.int 12) (Value.float ⟨120, 1⟩) = true := by decide
example : formatFloat1 ⟨132, 1⟩ = "13.2" := by decide
example : formatFloat1 ⟨11, 0⟩ = "11.0" := by decide
example : floatRepr ⟨120, 1⟩ = "12.0" := by decide
example : floatRepr ⟨132, 1⟩ = "13.2" := by decide
example : dLt ⟨119, 1⟩ ⟨120, 1⟩ = true := by decide

/-! ## Python dicts as association lists -/

/-- A Python dict with string keys, modelled as an association list with
first-match lookup (a real dict has unique keys; lookup agrees). -/
abbrev Dict := List (String × Value)

/-- Python `d.get(key)`: first value stored under the key, if any. -/
def alist_get {α : Type} : List (String × α) → String → Option α
  | [], _ => Option.none
  | (k, v) :: rest, key => if k = key then some v else alist_get rest key

/-- Python `d.get(key, default)`. -/
def alist_getD {α : Type} (d : List (String × α)) (key : String) (default : α) : α :=
  (alist_get d key).getD default

/-- Python `key in d`. -/
def hasKey {α : Type} (d : List (String × α)) (key : String) : Bool :=
  (alist_get d key).isSome

/-! ## config.py -/

/-- `Config` (src/config.py lines 7-27), restricted to the notification
settings the policy engine reads; the session/table/channel fields only
parameterize the external collaborators (API client, DynamoDB, SNS/SES)
and are not consulted by any modelled function. -/
structure Config where
  notify_on_status_change : Bool := true
  notify_on_connectivity_change : Bool := true
  notify_on_maintenance_alert : Bool := true
  notify_on_warning : Bool := true
  notify_on_low_battery : Bool := true
  low_battery_threshold : Dec := ⟨120, 1⟩

/-- The default configuration (all switches on, threshold 12.0 volts). -/
def defaultConfig : Config := {}

/-- `DEVICE_TYPE_GENERATOR = 0` (src/config.py line 94). -/
def DEVICE_TYPE_GENERATOR : Int := 0

/-- `DEVICE_NAME_MAP.get v` (src/config.py lines 96-99); Python dict keys
hash numerically, so the lookup goes through the numeric view. -/
def DEVICE_NAME_MAP_get (v : Value) : Option String :=
  match toNum v with
  | some q =>
    if dEq q ⟨0, 0⟩ then some "Generator"
    else if dEq q ⟨2, 0⟩ then some "Propane Tank Monitor"
    else Option.none
  | Option.none => Option.none

/-- `GENERATOR_STATUS_MAP.get v` (src/config.py lines 102-112). -/
def GENERATOR_STATUS_MAP_get (v : Value) : Option String :=
  match toNum v with
  | some q =>
    if dEq q ⟨1, 0⟩ then some "Ready"
    else if dEq q ⟨2, 0⟩ then some "Running"
    else if dEq q ⟨3, 0⟩ then some "Exercising"
    else if dEq q ⟨4, 0⟩ then some "Warning"
    else if dEq q ⟨5, 0⟩ then some "Stopped"
    else if dEq q ⟨6, 0⟩ then some "Communication Issue"
    else if dEq q ⟨7, 0⟩ then some "Unknown"
    else if dEq q ⟨8, 0⟩ then some "Online"
    else if dEq q ⟨9, 0⟩ then some "Offline"
    else Option.none
  | Option.none => Option.none

/-! ## The raw snapshot (models module) -/

/-- Modelled from the spec: the `models` module (the `Apparatus` dataclass)
is not among the sources; its fields are the ones `StateManager.extract_state`
reads and the spec's RawSnapshot describes (apparatus metadata: identifier,
display name, serial number, device-type code). -/
structure Apparatus where
  type : Int
  name : Value
  serialNumber : Value

/-- Modelled from the spec: one typed entry of the detail property list
(`prop.type`, `prop.value` as read by `extract_state`). -/
structure ApparatusProperty where
  type : Int
  value : Value

/-- Modelled from the spec: the `ApparatusDetail` dataclass fields read by
`extract_state` (connectivity flags, alert flags, status label/text and
code, last-seen timestamp, typed property list; an absent list is
modelled as the empty list, which the truthiness guard treats the same). -/
structure ApparatusDetail where
  isConnected : Value
  isConnecting : Value
  hasMaintenanceAlert : Value
  showWarning : Value
  statusLabel : Value
  statusText : Value
  apparatusStatus : Value
  lastSeen : Value
  properties : List ApparatusProperty

/-- Modelled from the spec: `Item` pairs an apparatus with its detail. -/
structure Item where
  apparatus : Apparatus
  apparatusDetail : ApparatusDetail

/-! ## state_manager.py -/

/-- `StateManager.extract_state` (src/state_manager.py lines 70-110):
projects an `Item` into the normalized flat state record; for
generator-type devices the first detail property of type 70 supplies
`battery_voltage` (the loop with `break`), else that key holds `None`.
The `isinstance` guard (line 82-83) returns `{}` for non-`Item` inputs
and is outside the typed model. -/
def extract_state (item : Item) : Dict :=
  let state : Dict :=
    [("device_type", Value.int item.apparatus.type),
     ("name", item.apparatus.name),
     ("serial_number", item.apparatus.serialNumber),
     ("is_connected", item.apparatusDetail.isConnected),
     ("is_connecting", item.apparatusDetail.isConnecting),
     ("has_maintenance_alert", item.apparatusDetail.hasMaintenanceAlert),
     ("show_warning", item.apparatusDetail.showWarning),
     ("status_label", item.apparatusDetail.statusLabel),
     ("status_text", item.apparatusDetail.statusText),
     ("apparatus_status", item.apparatusDetail.apparatusStatus),
     ("last_seen", item.apparatusDetail.lastSeen)]
  if item.apparatus.type = DEVICE_TYPE_GENERATOR then
    let battery_voltage :=
      ((item.apparatusDetail.properties.find? (fun p => decide (p.type = 70))).map
        ApparatusProperty.value).getD Value.none
    state ++ [("battery_voltage", battery_voltage)]
  else state

/-- One entry of a change-set: the `{"previous": ..., "current": ...}`
dict built by `compare_states`. -/
structure ChangeEntry where
  previous : Value
  current : Value
deriving DecidableEq

/-- A change-set mapping field names to previous/current pairs. -/
abbrev Changes := List (String × ChangeEntry)

/-- The comparison result of `compare_states`. -/
structure ChangeSet where
  is_new_device : Bool
  changes : Changes
deriving DecidableEq

/-- `StateManager.compare_states` (src/state_manager.py lines 112-150).
`previous` is the stored record's state dict (lines 131-134 re-parse it
from its JSON-string form; the parsed dict is passed here directly);
`Option.none` is the no-prior-record case.  The loop over `current`
records every key whose value differs under Python `!=`. -/
def compare_states (previous : Option Dict) (current : Dict) : ChangeSet :=
  match previous with
  | Option.none => { is_new_device := true, changes := [] }
  | some previous_state =>
    { is_new_device := false,
      changes :=
        current.filterMap (fun kv =>
          let prev_value := alist_getD previous_state kv.1 Value.none
          let curr_value := kv.2
          if pyEq prev_value curr_value then Option.none
          else some (kv.1, { previous := prev_value, current := curr_value })) }

example :
    compare_states (some [("x", Value.str "12.0")]) [("x", Value.float ⟨120, 1⟩)] =
      { is_new_device := false,
        changes := [("x", { previous := Value.str "12.0", current := Value.float ⟨120, 1⟩ })] } := by
  decide

example :
    compare_states (some [("x", Value.int 12)]) [("x", Value.float ⟨120, 1⟩)] =
      { is_new_device := false, changes := [] } := by
  decide

/-! ## notifier.py -/

/-- The low-battery test of `should_notify` (src/notifier.py lines 52-59):
read `battery_voltage` from the current state, guard on its truthiness,
convert with `float(...)` (conversion failure is swallowed by the
`except` and yields no notification), compare strictly against the
threshold. -/
def lowBatteryFires (cfg : Config) (current_state : Dict) : Bool :=
  let battery_voltage := alist_getD current_state "battery_voltage" Value.none
  if truthy battery_voltage then
    match pyFloat battery_voltage with
    | some voltage => dLt voltage cfg.low_battery_threshold
    | Option.none => false
  else false

/-- `changes.get(key, {}).get("current") is True` (src/notifier.py
lines 47 and 50): the entry must exist and its current value must be the
boolean `True` itself. -/
def changeCurrentIsTrue (changes : Changes) (key : String) : Bool :=
  match alist_get changes key with
  | some e => decide (e.current = Value.bool true)
  | Option.none => false

/-- `Notifier.should_notify` (src/notifier.py lines 27-61).  The Python
body is a chain of `if change_type == C and switch: return rule`; a
recognized category whose switch is off falls through past the remaining
(necessarily non-matching) tests to the final `return False`, so each
category computes `switch && rule`, and an unrecognized category yields
`False`. -/
def should_notify (cfg : Config) (change_type : String) (changes : Changes)
    (current_state : Dict) : Bool :=
  match change_type with
  | "status_change" =>
    cfg.notify_on_status_change && hasKey changes "apparatus_status"
  | "connectivity" =>
    cfg.notify_on_connectivity_change &&
      (hasKey changes "is_connected" || hasKey changes "is_connecting")
  | "maintenance" =>
    cfg.notify_on_maintenance_alert && changeCurrentIsTrue changes "has_maintenance_alert"
  | "warning" =>
    cfg.notify_on_warning && changeCurrentIsTrue changes "show_warning"
  | "low_battery" =>
    cfg.notify_on_low_battery && lowBatteryFires cfg current_state
  | _ => false

/-- Status block line 1 (src/notifier.py lines 115-121): prefer a truthy
`apparatus_status` through the status table with fallback text "Unknown",
else a truthy `status_label` rendered verbatim, else nothing. -/
def statusLine (state : Dict) : List String :=
  let apparatus_status := alist_getD state "apparatus_status" Value.none
  if truthy apparatus_status then
    ["Status: " ++ (GENERATOR_STATUS_MAP_get apparatus_status).getD "Unknown"]
  else if truthy (alist_getD state "status_label" Value.none) then
    ["Status: " ++ pyStr (alist_getD state "status_label" Value.none)]
  else []

/-- Status block connectivity line (src/notifier.py lines 123-129). -/
def connectionLine (state : Dict) : List String :=
  if truthy (alist_getD state "is_connected" Value.none) then ["Connected: Yes"]
  else if truthy (alist_getD state "is_connecting" Value.none) then ["Connected: Connecting..."]
  else ["Connected: No"]

/-- Status block alert markers (src/notifier.py lines 131-135). -/
def alertLines (state : Dict) : List String :=
  (if truthy (alist_getD state "has_maintenance_alert" Value.none) then
    ["⚠️  Maintenance Alert Active"] else []) ++
  (if truthy (alist_getD state "show_warning" Value.none) then
    ["⚠️  Warning Active"] else [])

/-- Status block battery lines (src/notifier.py lines 137-146): guarded on
the truthiness of the raw `battery_voltage`; a conversion failure aborts
the whole try-block, emitting nothing. -/
def batteryLines (cfg : Config) (state : Dict) : List String :=
  let battery_voltage := alist_getD state "battery_voltage" Value.none
  if truthy battery_voltage then
    match pyFloat battery_voltage with
    | some voltage =>
      ["Battery: " ++ formatFloat1 voltage ++ "V"] ++
        (if dLt voltage cfg.low_battery_threshold then ["🔋 Low Battery Warning"] else [])
    | Option.none => []
  else []

/-- `Notifier._format_status` (src/notifier.py lines 111-148): the four
blocks appended in source order, joined with newlines. -/
def format_status (cfg : Config) (state : Dict) : String :=
  String.intercalate "\n"
    (statusLine state ++ connectionLine state ++ alertLines state ++ batteryLines cfg state)

/-- One line of `Notifier._format_changes` (src/notifier.py lines 154-182):
per-field phrasing for the known fields, generic title-cased rendering
otherwise. -/
def format_change_line (key : String) (prev curr : Value) : String :=
  match key with
  | "apparatus_status" =>
    "  • Status changed: " ++ (GENERATOR_STATUS_MAP_get prev).getD (pyStr prev) ++
      " → " ++ (GENERATOR_STATUS_MAP_get curr).getD (pyStr curr)
  | "is_connected" =>
    "  • Connection: " ++ (if !truthy prev then "Disconnected" else "Connected") ++
      " → " ++ (if truthy curr then "Connected" else "Disconnected")
  | "has_maintenance_alert" =>
    if truthy curr then "  • ⚠️  Maintenance alert triggered"
    else "  • ✓ Maintenance alert cleared"
  | "show_warning" =>
    if truthy curr then "  • ⚠️  Warning triggered" else "  • ✓ Warning cleared"
  | "battery_voltage" =>
    match (if truthy prev then pyFloat prev else some ⟨0, 0⟩),
        (if truthy curr then pyFloat curr else some ⟨0, 0⟩) with
    | some pv, some cv =>
      "  • Battery voltage: " ++ formatFloat1 pv ++ "V → " ++ formatFloat1 cv ++ "V"
    | _, _ => "  • Battery voltage changed"
  | _ =>
    "  • " ++ titleCase (key.replace "_" " ") ++ ": " ++ pyStr prev ++ " → " ++ pyStr curr

/-- `Notifier._format_changes` (src/notifier.py lines 150-184): one line
per change-set entry in insertion order, or the literal fallback line. -/
def format_changes (changes : Changes) : String :=
  let change_lines := changes.map (fun kc => format_change_line kc.1 kc.2.previous kc.2.current)
  if change_lines.isEmpty then "No significant changes"
  else String.intercalate "\n" change_lines

/-- The built alert message: subject and body. -/
structure Message where
  subject : String
  body : String
deriving DecidableEq

/-- `Notifier.build_message` (src/notifier.py lines 63-109).  The
`datetime.utcnow().isoformat()` call is impure; the timestamp string is
passed in explicitly. -/
def build_message (cfg : Config) (device_id : String) (current_state : Dict)
    (changes : Changes) (is_new_device : Bool) (timestamp : String) : Message :=
  let device_name := pyStr (alist_getD current_state "name" (Value.str "Unknown Device"))
  let device_type :=
    (DEVICE_NAME_MAP_get (alist_getD current_state "device_type" Value.none)).getD "Unknown"
  let serial := pyStr (alist_getD current_state "serial_number" (Value.str device_id))
  if is_new_device then
    { subject := "New " ++ device_type ++ " Detected: " ++ device_name,
      body := "A new " ++ device_type ++ " has been detected in your Generac account.\n\n" ++
        "Device: " ++ device_name ++ "\n" ++
        "Serial Number: " ++ serial ++ "\n" ++
        "Current Status: " ++ format_status cfg current_state ++ "\n\n" ++
        "This is the first time this device has been seen by the monitoring system.\n" ++
        "\nTimestamp: " ++ timestamp ++ "Z" }
  else
    { subject := "Generator Alert: " ++ device_name,
      body := "Your " ++ device_type ++ " has reported status changes.\n\n" ++
        "Device: " ++ device_name ++ "\n" ++
        "Serial Number: " ++ serial ++ "\n\n" ++
        "Changes:\n" ++ format_changes changes ++ "\n\n" ++
        "Current Status: " ++ format_status cfg current_state ++ "\n" ++
        "\nTimestamp: " ++ timestamp ++ "Z" }

/-- `Notifier.process_changes` (src/notifier.py lines 229-269): new
devices always get a message; otherwise the five category rules are
evaluated (the if/elif chain is their disjunction) and at most one
message, covering the whole change-set, is handed to the delivery
channels.  The result is that single message, or nothing. -/
def process_changes (cfg : Config) (timestamp device_id : String) (current_state : Dict)
    (changes : Changes) (is_new_device : Bool) : Option Message :=
  if is_new_device then
    some (build_message cfg device_id current_state changes is_new_device timestamp)
  else
    let should_send :=
      should_notify cfg "status_change" changes current_state ||
      should_notify cfg "connectivity" changes current_state ||
      should_notify cfg "maintenance" changes current_state ||
      should_notify cfg "warning" changes current_state ||
      should_notify cfg "low_battery" changes current_state
    if should_send then
      some (build_message cfg device_id current_state changes is_new_device timestamp)
    else Option.none

/-! ## lambda_handler.py -/

/-- The per-device outcome inside `check_generators`: whether the
`notifications_sent` counter was incremented, and the message (if any)
that `process_changes` dispatched. -/
structure DeviceResult where
  counted : Bool
  message : Option Message
deriving DecidableEq

/-- The per-device body of `check_generators` (src/lambda_handler.py
lines 59-91): extract the current state, diff it against the stored
state, and — only when the device is new or the change-set is non-empty —
invoke `process_changes` and increment `notifications_sent`
(unconditionally of whether any message was actually produced or any
delivery channel succeeded; the call's outcome is never consulted). -/
def check_device (cfg : Config) (timestamp device_id : String) (item : Item)
    (previous_state : Option Dict) : DeviceResult :=
  let current_state := extract_state item
  let comparison := compare_states previous_state current_state
  if comparison.is_new_device || !comparison.changes.isEmpty then
    { counted := true,
      message := process_changes cfg timestamp device_id current_state
        comparison.changes comparison.is_new_device }
  else
    { counted := false, message := Option.none }

/-! ## Claims -/

/-- C4: when the previous record is absent, `compare_states` returns
`is_new_device = true` with an empty change-set regardless of the current
state; and every result with `is_new_device = true` has an empty changes
mapping. -/
theorem claim_C4 :
    (∀ current : Dict,
      compare_states Option.none current = { is_new_device := true, changes := [] }) ∧
    (∀ (previous : Option Dict) (current : Dict),
      (compare_states previous current).is_new_device = true →
      (compare_states previous current).changes = []) := by
  constructor
  · intro current; rfl
  · intro previous current h
    cases previous with
    | none => rfl
    | some p => simp [compare_states] at h

/-- Witness for C4 at a concrete two-field current state. -/
theorem claim_C4_witness :
    (compare_states Option.none [("name", Value.str "G"), ("x", Value.int 3)]).changes = [] :=
  claim_C4.2 Option.none [("name", Value.str "G"), ("x", Value.int 3)] (by decide)

/-- C5: with a previous record present, `compare_states` reports an
existing device and the change-set holds exactly the current-state
entries whose value differs (Python `!=`) from the previous value (a key
missing in the previous state is read as `None`), each entry carrying the
input previous/current values verbatim; the diff is driven by the current
record's keys, and pointwise-equal states give an empty change-set. -/
theorem claim_C5 : ∀ prev current : Dict,
    ((compare_states (some prev) current).is_new_device = false) ∧
    (∀ (k : String) (pv cv : Value),
      (k, ChangeEntry.mk pv cv) ∈ (compare_states (some prev) current).changes ↔
        ((k, cv) ∈ current ∧ pv = alist_getD prev k Value.none ∧ pyEq pv cv = false)) ∧
    ((∀ kv ∈ current, pyEq (alist_getD prev kv.1 Value.none) kv.2 = true) →
      (compare_states (some prev) current).changes = []) := by
  intro prev current
  refine ⟨rfl, ?_, ?_⟩
  · intro k pv cv
    simp only [compare_states, List.mem_filterMap]
    constructor
    · rintro ⟨⟨k2, v2⟩, hmem, hf⟩
      by_cases h : pyEq (alist_getD prev k2 Value.none) v2 = true
      · simp [h] at hf
      · simp only [Bool.not_eq_true] at h
        simp [h] at hf
        obtain ⟨hk, hpv, hcv⟩ := hf
        subst hk
        exact ⟨by simpa [hcv] using hmem, hpv.symm, by simpa [hpv, hcv] using h⟩
    · rintro ⟨hmem, hpv, hne⟩
      refine ⟨(k, cv), hmem, ?_⟩
      simp [← hpv, hne]
  · intro h
    refine List.filterMap_eq_nil_iff.mpr ?_
    intro kv hkv
    simp [h kv hkv]

/-- Witness for C5: an int-previous and numerically equal float-current
state diff to an empty change-set. -/
theorem claim_C5_witness :
    (compare_states (some [("a", Value.int 1)]) [("a", Value.float ⟨10, 1⟩)]).changes = [] :=
  (claim_C5 [("a", Value.int 1)] [("a", Value.float ⟨10, 1⟩)]).2.2 (by decide)

/-- First-match characterization of `List.find?` over a split list. -/
lemma find?_append_first {α : Type} (p : α → Bool) (l1 : List α) (a : α) (l2 : List α)
    (h1 : ∀ x ∈ l1, p x = false) (ha : p a = true) :
    (l1 ++ a :: l2).find? p = some a := by
  induction l1 with
  | nil => simp [List.find?_cons_of_pos, ha]
  | cons x xs ih =>
    have hx : p x = false := h1 x (by simp)
    simp only [List.cons_append, List.find?, hx]
    exact ih (fun y hy => h1 y (by simp [hy]))

/-- A generator snapshot whose detail property list is empty. -/
def item_gen_noprops : Item :=
  { apparatus := { type := 0, name := Value.str "Gen", serialNumber := Value.str "SN1" },
    apparatusDetail :=
      { isConnected := Value.bool true, isConnecting := Value.bool false,
        hasMaintenanceAlert := Value.bool false, showWarning := Value.bool false,
        statusLabel := Value.none, statusText := Value.none,
        apparatusStatus := Value.int 1, lastSeen := Value.str "2024-01-01",
        properties := [] } }

/-- A generator snapshot with a non-70 property, then two type-70
properties (the first one carries 12.0). -/
def item_gen_props : Item :=
  { apparatus := { type := 0, name := Value.str "Gen", serialNumber := Value.str "SN2" },
    apparatusDetail :=
      { isConnected := Value.bool true, isConnecting := Value.bool false,
        hasMaintenanceAlert := Value.bool false, showWarning := Value.bool false,
        statusLabel := Value.none, statusText := Value.none,
        apparatusStatus := Value.int 1, lastSeen := Value.str "2024-01-01",
        properties := [{ type := 55, value := Value.str "x" },
                       { type := 70, value := Value.float ⟨120, 1⟩ },
                       { type := 70, value := Value.float ⟨999, 1⟩ }] } }

/-- C2 fails on the code: for a generator whose property list has no
type-70 entry, `extract_state` still emits the `battery_voltage` key,
bound to `None` — the key is not absent as the claim states. -/
theorem claim_C2_counterexample :
    item_gen_noprops.apparatus.type = DEVICE_TYPE_GENERATOR ∧
    item_gen_noprops.apparatusDetail.properties = [] ∧
    alist_get (extract_state item_gen_noprops) "battery_voltage" = some Value.none := by
  refine ⟨rfl, rfl, by decide⟩

/-- C2 amended: `battery_voltage` is present in the extracted record iff
the device type is the generator type — regardless of the property list;
when a type-70 entry exists the value is the first such entry's value,
and with no type-70 entry the key is present with value `None` (not
absent). -/
theorem claim_C2_amended : ∀ item : Item,
    (hasKey (extract_state item) "battery_voltage" = true ↔
      item.apparatus.type = DEVICE_TYPE_GENERATOR) ∧
    (item.apparatus.type = DEVICE_TYPE_GENERATOR →
      ((∀ q ∈ item.apparatusDetail.properties, q.type ≠ 70) →
        alist_get (extract_state item) "battery_voltage" = some Value.none) ∧
      (∀ (l1 : List ApparatusProperty) (p : ApparatusProperty) (l2 : List ApparatusProperty),
        item.apparatusDetail.properties = l1 ++ p :: l2 → p.type = 70 →
        (∀ q ∈ l1, q.type ≠ 70) →
        alist_get (extract_state item) "battery_voltage" = some p.value)) := by
  intro item
  by_cases hg : item.apparatus.type = DEVICE_TYPE_GENERATOR
  · refine ⟨?_, ?_⟩
    · simp [extract_state, if_pos hg, hasKey, alist_get, hg]
    · intro _
      constructor
      · intro hnone
        have hfind : item.apparatusDetail.properties.find? (fun q => decide (q.type = 70)) =
            Option.none := by
          apply List.find?_eq_none.mpr
          intro x hx
          simpa using hnone x hx
        simp [extract_state, if_pos hg, hfind, alist_get]
      · intro l1 p l2 hprops hp hl1
        have hfind : item.apparatusDetail.properties.find? (fun q => decide (q.type = 70)) =
            some p := by
          rw [hprops]
          exact find?_append_first _ l1 p l2 (fun y hy => by simpa using hl1 y hy) (by simp [hp])
        simp [extract_state, if_pos hg, hfind, alist_get]
  · refine ⟨?_, fun h => absurd h hg⟩
    simp [extract_state, if_neg hg, hasKey, alist_get, hg]

/-- Witness for C2 amended: the first of two type-70 properties supplies
the extracted battery voltage of a concrete generator snapshot. -/
theorem claim_C2_amended_witness :
    alist_get (extract_state item_gen_props) "battery_voltage" = some (Value.float ⟨120, 1⟩) :=
  ((claim_C2_amended item_gen_props).2 rfl).2
    [{ type := 55, value := Value.str "x" }]
    { type := 70, value := Value.float ⟨120, 1⟩ }
    [{ type := 70, value := Value.float ⟨999, 1⟩ }]
    rfl rfl (by decide)

/-- C3 fails on the code: `compare_states` compares with Python `!=`, and
a previous value stored as the string "12.0" is not equal to a current
float 12.0 — the change IS recorded, where the claim says the two are
treated as equal across the serialization boundary. -/
theorem claim_C3_counterexample :
    (compare_states (some [("battery_voltage", Value.str "12.0")])
        [("battery_voltage", Value.float ⟨120, 1⟩)]).changes =
      [("battery_voltage",
        { previous := Value.str "12.0", current := Value.float ⟨120, 1⟩ })] := by
  decide

/-- C3 amended: the change-set is driven by Python equality — numbers
(int/float/bool) compare numerically, strings compare as strings, and a
string never equals a number; so an int-previous 12 equals a
float-current 12.0 (no change), while a string-previous "12.0" against a
float-current 12.0 is recorded as a change. -/
theorem claim_C3_amended :
    (∀ (m : Int) (d : Dec), pyEq (Value.int m) (Value.float d) = dEq ⟨m, 0⟩ d) ∧
    (∀ (s : String) (d : Dec), pyEq (Value.str s) (Value.float d) = false) ∧
    (∀ s t : String, pyEq (Value.str s) (Value.str t) = decide (s = t)) ∧
    (compare_states (some [("x", Value.int 12)]) [("x", Value.float ⟨120, 1⟩)]).changes = [] ∧
    (compare_states (some [("x", Value.str "12.0")]) [("x", Value.float ⟨120, 1⟩)]).changes ≠
      [] :=
  ⟨fun _ _ => rfl, fun _ _ => rfl, fun _ _ => rfl, by decide, by decide⟩

/-- C6: with the respective switch on, the maintenance (resp. warning)
category fires iff the change-set holds the flag key with current value
`True`; a true-to-false transition (clearing) does not notify, a
false-to-true transition does. -/
theorem claim_C6 :
    (∀ (cfg : Config) (changes : Changes) (s : Dict),
      cfg.notify_on_maintenance_alert = true →
      (should_notify cfg "maintenance" changes s = true ↔
        ∃ e, alist_get changes "has_maintenance_alert" = some e ∧
          e.current = Value.bool true)) ∧
    (∀ (cfg : Config) (changes : Changes) (s : Dict),
      cfg.notify_on_warning = true →
      (should_notify cfg "warning" changes s = true ↔
        ∃ e, alist_get changes "show_warning" = some e ∧ e.current = Value.bool true)) ∧
    (should_notify defaultConfig "maintenance"
      [("has_maintenance_alert", { previous := Value.bool true, current := Value.bool false })]
      [] = false) ∧
    (should_notify defaultConfig "maintenance"
      [("has_maintenance_alert", { previous := Value.bool false, current := Value.bool true })]
      [] = true) := by
  refine ⟨?_, ?_, by decide, by decide⟩
  · intro cfg changes s h
    have hred : should_notify cfg "maintenance" changes s =
        (cfg.notify_on_maintenance_alert &&
          changeCurrentIsTrue changes "has_maintenance_alert") := rfl
    rw [hred, h, Bool.true_and]
    unfold changeCurrentIsTrue
    cases halist : alist_get changes "has_maintenance_alert" with
    | none => simp
    | some e => simp
  · intro cfg changes s h
    have hred : should_notify cfg "warning" changes s =
        (cfg.notify_on_warning && changeCurrentIsTrue changes "show_warning") := rfl
    rw [hred, h, Bool.true_and]
    unfold changeCurrentIsTrue
    cases halist : alist_get changes "show_warning" with
    | none => simp
    | some e => simp

/-- Witness for C6: a concrete false-to-true `show_warning` change fires
under the default configuration. -/
theorem claim_C6_witness :
    should_notify defaultConfig "warning"
      [("show_warning", { previous := Value.bool false, current := Value.bool true })]
      [] = true :=
  (claim_C6.2.1 defaultConfig
      [("show_warning", { previous := Value.bool false, current := Value.bool true })]
      [] rfl).mpr
    ⟨{ previous := Value.bool false, current := Value.bool true }, rfl, rfl⟩

/-- A configuration with every notify-on switch off. -/
def cfgAllOff : Config :=
  { notify_on_status_change := false, notify_on_connectivity_change := false,
    notify_on_maintenance_alert := false, notify_on_warning := false,
    notify_on_low_battery := false }

/-- C7: `process_changes` always produces a message for a new device for
every configuration (bypassing the category rules and switches); for an
existing device it produces a message iff at least one of the five
category rules fires, and that single message is the one built over the
whole change-set; with all five switches off an existing device never
gets a message. -/
theorem claim_C7 :
    (∀ (cfg : Config) (ts id : String) (cur : Dict) (ch : Changes),
      (process_changes cfg ts id cur ch true).isSome = true) ∧
    (∀ (cfg : Config) (ts id : String) (cur : Dict) (ch : Changes),
      (process_changes cfg ts id cur ch false).isSome =
        (should_notify cfg "status_change" ch cur ||
         should_notify cfg "connectivity" ch cur ||
         should_notify cfg "maintenance" ch cur ||
         should_notify cfg "warning" ch cur ||
         should_notify cfg "low_battery" ch cur)) ∧
    (∀ (cfg : Config) (ts id : String) (cur : Dict) (ch : Changes) (m : Message),
      process_changes cfg ts id cur ch false = some m →
      m = build_message cfg id cur ch false ts) ∧
    (∀ (cfg : Config) (ts id : String) (cur : Dict) (ch : Changes),
      cfg.notify_on_status_change = false → cfg.notify_on_connectivity_change = false →
      cfg.notify_on_maintenance_alert = false → cfg.notify_on_warning = false →
      cfg.notify_on_low_battery = false →
      process_changes cfg ts id cur ch false = Option.none) := by
  refine ⟨fun _ _ _ _ _ => rfl, ?_, ?_, ?_⟩
  · intro cfg ts id cur ch
    cases h : (should_notify cfg "status_change" ch cur ||
        should_notify cfg "connectivity" ch cur ||
        should_notify cfg "maintenance" ch cur ||
        should_notify cfg "warning" ch cur ||
        should_notify cfg "low_battery" ch cur) with
    | false => simp [process_changes, h]
    | true => simp [process_changes, h]
  · intro cfg ts id cur ch m h
    simp only [process_changes] at h
    split at h
    · exact (Option.some.inj h).symm
    · split at h
      · exact (Option.some.inj h).symm
      · exact absurd h (by simp)
  · intro cfg ts id cur ch h1 h2 h3 h4 h5
    have a1 : should_notify cfg "status_change" ch cur = false := by
      have hr : should_notify cfg "status_change" ch cur =
          (cfg.notify_on_status_change && hasKey ch "apparatus_status") := rfl
      rw [hr, h1, Bool.false_and]
    have a2 : should_notify cfg "connectivity" ch cur = false := by
      have hr : should_notify cfg "connectivity" ch cur =
          (cfg.notify_on_connectivity_change &&
            (hasKey ch "is_connected" || hasKey ch "is_connecting")) := rfl
      rw [hr, h2, Bool.false_and]
    have a3 : should_notify cfg "maintenance" ch cur = false := by
      have hr : should_notify cfg "maintenance" ch cur =
          (cfg.notify_on_maintenance_alert &&
            changeCurrentIsTrue ch "has_maintenance_alert") := rfl
      rw [hr, h3, Bool.false_and]
    have a4 : should_notify cfg "warning" ch cur = false := by
      have hr : should_notify cfg "warning" ch cur =
          (cfg.notify_on_warning && changeCurrentIsTrue ch "show_warning") := rfl
      rw [hr, h4, Bool.false_and]
    have a5 : should_notify cfg "low_battery" ch cur = false := by
      have hr : should_notify cfg "low_battery" ch cur =
          (cfg.notify_on_low_battery && lowBatteryFires cfg cur) := rfl
      rw [hr, h5, Bool.false_and]
    simp [process_changes, a1, a2, a3, a4, a5]

/-- Witness for C7: with all switches off, a status change on a
low-battery existing device produces no message. -/
theorem claim_C7_witness :
    process_changes cfgAllOff "2024-01-01T00:00:00" "dev1"
      [("battery_voltage", Value.float ⟨110, 1⟩)]
      [("apparatus_status", { previous := Value.int 1, current := Value.int 4 })]
      false = Option.none :=
  claim_C7.2.2.2 cfgAllOff "2024-01-01T00:00:00" "dev1"
    [("battery_voltage", Value.float ⟨110, 1⟩)]
    [("apparatus_status", { previous := Value.int 1, current := Value.int 4 })]
    rfl rfl rfl rfl rfl

/-- C9: both the low-battery rule and the status-block battery lines are
guarded on the truthiness of the raw `battery_voltage`, so a falsy value
(0, 0.0, "", None) never fires the rule — although 0 is below any
positive threshold — and produces no Battery line; the truthy string "0"
is the exception and does fire. -/
theorem claim_C9 :
    (∀ (cfg : Config) (ch : Changes) (s : Dict) (v : Value),
      alist_get s "battery_voltage" = some v → truthy v = false →
      should_notify cfg "low_battery" ch s = false) ∧
    (∀ (cfg : Config) (s : Dict) (v : Value),
      alist_get s "battery_voltage" = some v → truthy v = false →
      batteryLines cfg s = []) ∧
    (should_notify defaultConfig "low_battery" []
      [("battery_voltage", Value.float ⟨0, 0⟩)] = false) ∧
    (batteryLines defaultConfig [("battery_voltage", Value.float ⟨0, 0⟩)] = []) ∧
    (should_notify defaultConfig "low_battery" []
      [("battery_voltage", Value.str "0")] = true) := by
  refine ⟨?_, ?_, by decide, by decide, by decide⟩
  · intro cfg ch s v hv ht
    have hred : should_notify cfg "low_battery" ch s =
        (cfg.notify_on_low_battery && lowBatteryFires cfg s) := rfl
    rw [hred]
    unfold lowBatteryFires
    rw [show alist_getD s "battery_voltage" Value.none = v from by simp [alist_getD, hv]]
    simp [ht]
  · intro cfg s v hv ht
    unfold batteryLines
    rw [show alist_getD s "battery_voltage" Value.none = v from by simp [alist_getD, hv]]
    simp [ht]

/-- Witness for C9: the falsy empty-string battery value does not fire
the low-battery rule. -/
theorem claim_C9_witness :
    should_notify defaultConfig "low_battery" []
      [("battery_voltage", Value.str "")] = false :=
  claim_C9.1 defaultConfig [] [("battery_voltage", Value.str "")] (Value.str "")
    (by decide) (by decide)

/-- C8: `build_message` subjects — "Generator Alert: {name}" for existing
devices, "New {label} Detected: {name}" for new devices with the label
from the device-type table and "Unknown" for unknown codes; and an
apparatus_status change 1 to 4 renders both sides through the status
table as "Status changed: Ready → Warning". -/
theorem claim_C8 :
    (∀ (cfg : Config) (id : String) (cur : Dict) (ch : Changes) (ts nm : String),
      alist_get cur "name" = some (Value.str nm) →
      (build_message cfg id cur ch false ts).subject = "Generator Alert: " ++ nm) ∧
    (∀ (cfg : Config) (id : String) (cur : Dict) (ch : Changes) (ts nm lbl : String)
        (dt : Value),
      alist_get cur "name" = some (Value.str nm) →
      alist_get cur "device_type" = some dt →
      DEVICE_NAME_MAP_get dt = some lbl →
      (build_message cfg id cur ch true ts).subject = "New " ++ lbl ++ " Detected: " ++ nm) ∧
    (∀ (cfg : Config) (id : String) (cur : Dict) (ch : Changes) (ts nm : String) (dt : Value),
      alist_get cur "name" = some (Value.str nm) →
      alist_get cur "device_type" = some dt →
      DEVICE_NAME_MAP_get dt = Option.none →
      (build_message cfg id cur ch true ts).subject = "New Unknown Detected: " ++ nm) ∧
    (format_changes
        [("apparatus_status", { previous := Value.int 1, current := Value.int 4 })] =
      "  • Status changed: Ready → Warning") := by
  refine ⟨?_, ?_, ?_, by decide⟩
  · intro cfg id cur ch ts nm hn
    simp [build_message, alist_getD, hn, pyStr]
  · intro cfg id cur ch ts nm lbl dt hn hd hmap
    simp [build_message, alist_getD, hn, hd, hmap, pyStr]
  · intro cfg id cur ch ts nm dt hn hd hmap
    simp [build_message, alist_getD, hn, hd, hmap, pyStr]

/-- Witness for C8: a concrete existing-device subject. -/
theorem claim_C8_witness :
    (build_message defaultConfig "d1" [("name", Value.str "Home Gen")] [] false "T").subject =
      "Generator Alert: Home Gen" :=
  claim_C8.1 defaultConfig "d1" [("name", Value.str "Home Gen")] [] "T" "Home Gen" (by decide)

/-- A generator snapshot reporting battery voltage 11.0, below the default
12.0 threshold. -/
def item_lowbat : Item :=
  { apparatus := { type := 0, name := Value.str "Gen", serialNumber := Value.str "SN4" },
    apparatusDetail :=
      { isConnected := Value.bool true, isConnecting := Value.bool false,
        hasMaintenanceAlert := Value.bool false, showWarning := Value.bool false,
        statusLabel := Value.none, statusText := Value.none,
        apparatusStatus := Value.int 1, lastSeen := Value.str "2024-01-01",
        properties := [{ type := 70, value := Value.float ⟨110, 1⟩ }] } }

/-- C1 fails on the code: an existing device with battery 11.0 below the
threshold, low-battery switch on, but an empty change-set — the
`check_generators` gate (src/lambda_handler.py line 81) never calls
`process_changes`, so no notification is emitted in that cycle, where the
claim says one is emitted even with an empty change-set. -/
theorem claim_C1_counterexample :
    alist_get (extract_state item_lowbat) "battery_voltage" = some (Value.float ⟨110, 1⟩) ∧
    dLt ⟨110, 1⟩ defaultConfig.low_battery_threshold = true ∧
    defaultConfig.notify_on_low_battery = true ∧
    (compare_states (some (extract_state item_lowbat)) (extract_state item_lowbat)).changes =
      [] ∧
    check_device defaultConfig "T" "dev" item_lowbat (some (extract_state item_lowbat)) =
      { counted := false, message := Option.none } := by
  decide

/-- C1 amended: for an existing device whose cycle has a NON-EMPTY
change-set (any field), a truthy numeric `battery_voltage` strictly below
the threshold with the switch on guarantees a notification — the
low-battery rule itself is independent of which keys changed; but with an
empty change-set `process_changes` is never invoked, so nothing is
emitted; voltage equal to the threshold, or `battery_voltage` absent,
never fires the rule. -/
theorem claim_C1_amended :
    (∀ (cfg : Config) (ts id : String) (item : Item) (prev : Dict) (v : Value) (q : Dec),
      cfg.notify_on_low_battery = true →
      alist_get (extract_state item) "battery_voltage" = some v →
      truthy v = true → pyFloat v = some q →
      dLt q cfg.low_battery_threshold = true →
      (compare_states (some prev) (extract_state item)).changes ≠ [] →
      (check_device cfg ts id item (some prev)).message.isSome = true) ∧
    (∀ (cfg : Config) (ch : Changes) (s : Dict),
      alist_get s "battery_voltage" = some (Value.float cfg.low_battery_threshold) →
      should_notify cfg "low_battery" ch s = false) ∧
    (∀ (cfg : Config) (ch : Changes) (s : Dict),
      alist_get s "battery_voltage" = Option.none →
      should_notify cfg "low_battery" ch s = false) := by
  refine ⟨?_, ?_, ?_⟩
  · intro cfg ts id item prev v q hcfg hv htr hf hlt hne
    have hfire : lowBatteryFires cfg (extract_state item) = true := by
      unfold lowBatteryFires
      rw [show alist_getD (extract_state item) "battery_voltage" Value.none = v from by
        simp [alist_getD, hv]]
      simp [htr, hf, hlt]
    have hsn : should_notify cfg "low_battery"
        (compare_states (some prev) (extract_state item)).changes (extract_state item) =
          true := by
      have hr : should_notify cfg "low_battery"
          (compare_states (some prev) (extract_state item)).changes (extract_state item) =
            (cfg.notify_on_low_battery && lowBatteryFires cfg (extract_state item)) := rfl
      rw [hr, hcfg, hfire]
      rfl
    have hnew : (compare_states (some prev) (extract_state item)).is_new_device = false := rfl
    have hcond : ((compare_states (some prev) (extract_state item)).is_new_device ||
        !(compare_states (some prev) (extract_state item)).changes.isEmpty) = true := by
      simp [hnew, List.isEmpty_eq_true, hne]
    simp only [check_device, hcond, if_true]
    simp [process_changes, hnew, hsn]
  · intro cfg ch s hv
    have hr : should_notify cfg "low_battery" ch s =
        (cfg.notify_on_low_battery && lowBatteryFires cfg s) := rfl
    rw [hr]
    unfold lowBatteryFires
    rw [show alist_getD s "battery_voltage" Value.none =
        Value.float cfg.low_battery_threshold from by simp [alist_getD, hv]]
    by_cases h0 : cfg.low_battery_threshold.num = 0
    · simp [truthy, h0]
    · simp [truthy, h0, pyFloat, dLt]
  · intro cfg ch s hv
    have hr : should_notify cfg "low_battery" ch s =
        (cfg.notify_on_low_battery && lowBatteryFires cfg s) := rfl
    rw [hr]
    unfold lowBatteryFires
    rw [show alist_getD s "battery_voltage" Value.none = Value.none from by
      simp [alist_getD, hv]]
    simp [truthy]

/-- Witness for C1 amended: a name-only difference makes the change-set
non-empty and the 11.0-volt battery then forces a message. -/
theorem claim_C1_amended_witness :
    (check_device defaultConfig "T2" "dev2" item_lowbat
      (some [("name", Value.str "Old")])).message.isSome = true :=
  claim_C1_amended.1 defaultConfig "T2" "dev2" item_lowbat [("name", Value.str "Old")]
    (Value.float ⟨110, 1⟩) ⟨110, 1⟩ rfl (by decide) (by decide) rfl (by decide) (by decide)

/-- A propane-monitor snapshot (no battery field). -/
def item_c10 : Item :=
  { apparatus := { type := 2, name := Value.str "Tank", serialNumber := Value.str "SN5" },
    apparatusDetail :=
      { isConnected := Value.bool true, isConnecting := Value.bool false,
        hasMaintenanceAlert := Value.bool false, showWarning := Value.bool false,
        statusLabel := Value.str "Ok", statusText := Value.none,
        apparatusStatus := Value.int 8, lastSeen := Value.str "2024-01-02",
        properties := [] } }

/-- The same device one cycle earlier: only `last_seen` differs. -/
def item_c10_old : Item :=
  { apparatus := item_c10.apparatus,
    apparatusDetail :=
      { item_c10.apparatusDetail with lastSeen := Value.str "2024-01-01" } }

/-- C10: the `notifications_sent` increment tracks exactly "new device or
non-empty change-set", never the policy outcome or delivery result; a
device whose only change is `last_seen` increments the counter while
`process_changes` sends nothing, so the counter can exceed the number of
dispatched notifications. -/
theorem claim_C10 :
    (∀ (cfg : Config) (ts id : String) (item : Item) (p : Option Dict),
      (check_device cfg ts id item p).counted =
        ((compare_states p (extract_state item)).is_new_device ||
          !(compare_states p (extract_state item)).changes.isEmpty)) ∧
    ((check_device defaultConfig "T" "dev3" item_c10
        (some (extract_state item_c10_old))).counted = true ∧
     (check_device defaultConfig "T" "dev3" item_c10
        (some (extract_state item_c10_old))).message = Option.none ∧
     (compare_states (some (extract_state item_c10_old)) (extract_state item_c10)).changes ≠
        []) := by
  constructor
  · intro cfg ts id item p
    unfold check_device
    cases h : ((compare_states p (extract_state item)).is_new_device ||
        !(compare_states p (extract_state item)).changes.isEmpty) with
    | false => simp [h]
    | true => simp [h]
  · refine ⟨by decide, by decide, by decide⟩
